import Mathlib

/-!
Shallow embedding of the `fee-vault-v2` contract core (files `src/vault.rs` and
`src/rewards.rs`) and proofs about it.

Conventions of the embedding:
* `i128` amounts are modelled as `Int`.  All arithmetic on them in the source is
  checked (`checked_mul`/`checked_div` + `unwrap_optimized`, and the crate is
  built with `overflow-checks = true`, as witnessed by the
  `attempt to subtract with overflow` expectations in the test-suite); an
  overflow aborts the whole transaction, so no wrapped value is ever observable
  and amounts are faithfully represented by unbounded integers.
* `u64` timestamps are modelled as `Nat`; `u64` subtractions, which trap on
  underflow, are modelled explicitly (`Except` with `Panic.arithmeticOverflow`).
* panics (`panic_with_error!`) are modelled by `Except.error`; the surrounding
  transactional environment persists nothing on a panic, so an `Except.error`
  result carries no state.
* the `soroban_fixed_point_math` crate's `fixed_mul_floor x y d = ⌊x*y/d⌋`,
  `fixed_mul_ceil x y d = ⌈x*y/d⌉`, `fixed_div_floor x y d = ⌊x*d/y⌋`,
  `fixed_div_ceil x y d = ⌈x*d/y⌉`, with floor rounding towards −∞
  (the source comments this: "math lib treats floor as rounding away from 0
  for negative numbers").  Floor is `Int.fdiv`, ceiling is `cdiv` below.
-/

namespace FeeVault

/-- Ceiling division: `cdiv a b = ⌈a / b⌉` for `b > 0`. -/
def cdiv (a b : Int) : Int := -(Int.fdiv (-a) b)

/-- `soroban_fixed_point_math`: `x.fixed_mul_floor(y, d) = ⌊x*y/d⌋`. -/
def fixedMulFloor (x y d : Int) : Int := Int.fdiv (x * y) d

/-- `soroban_fixed_point_math`: `x.fixed_mul_ceil(y, d) = ⌈x*y/d⌉`. -/
def fixedMulCeil (x y d : Int) : Int := cdiv (x * y) d

/-- `soroban_fixed_point_math`: `x.fixed_div_floor(y, d) = ⌊x*d/y⌋`. -/
def fixedDivFloor (x y d : Int) : Int := Int.fdiv (x * d) y

/-- `soroban_fixed_point_math`: `x.fixed_div_ceil(y, d) = ⌈x*d/y⌉`. -/
def fixedDivCeil (x y d : Int) : Int := cdiv (x * d) y

/-- Modelled from the spec: the 7-decimal fixed-point scale (`constants.rs` is
not present under `src/`; the spec fixes "7 decimal fixed-point (scale 10^7)"). -/
def SCALAR_7 : Int := 10000000

/-- Modelled from the spec: the 12-decimal fixed-point scale for `b_rate`
(`constants.rs` is not present under `src/`; the spec fixes
"`b_rate` uses 12 decimal fixed-point (scale 10^12)"). -/
def SCALAR_12 : Int := 1000000000000

/-- Modelled from the spec: `seconds_per_year` used by the capped/fixed rate
policies (`constants.rs` is not present under `src/`; the spec names the
constant but gives no value, so the conventional 365-day year is used). -/
def SECONDS_PER_YEAR : Int := 31536000

/-- `u64::MAX`, the reward-rate numeric ceiling checked in `calculate_eps`. -/
def U64_MAX : Int := 18446744073709551615

/-- The contract error codes of `errors.rs` that the embedded operations use. -/
inductive ContractError where
  | balanceError
  | insufficientReserves
  | invalidBTokensMinted
  | invalidBTokensBurnt
  | invalidSharesMinted
  | invalidSharesBurnt
  | noRewardsConfigured
  | invalidRewardConfig
  deriving DecidableEq, Repr

/-- A trap of the host: either a tagged contract error (`panic_with_error!`) or
an arithmetic overflow/underflow of a checked machine operation. -/
inductive Panic where
  | contractError (e : ContractError)
  | arithmeticOverflow
  deriving DecidableEq, Repr

/-- `vault.rs` `VaultData`. -/
structure VaultData where
  last_update_timestamp : Nat
  b_rate : Int
  total_shares : Int
  total_b_tokens : Int
  admin_balance : Int
  deriving DecidableEq, Repr

/-- `storage.rs` `Fee`: `rate_type` (0 take / 1 capped / 2 fixed) and 7-decimal
`rate`, both `u32` in the source. -/
structure Fee where
  rate_type : Nat
  rate : Nat
  deriving DecidableEq, Repr

/-- `vault.rs` `b_tokens_to_shares_down`. -/
def VaultData.b_tokens_to_shares_down (v : VaultData) (amount : Int) : Int :=
  if v.total_shares = 0 ∨ v.total_b_tokens = 0 then amount
  else fixedMulFloor amount v.total_shares v.total_b_tokens

/-- `vault.rs` `b_tokens_to_shares_up`. -/
def VaultData.b_tokens_to_shares_up (v : VaultData) (amount : Int) : Int :=
  if v.total_shares = 0 ∨ v.total_b_tokens = 0 then amount
  else fixedMulCeil amount v.total_shares v.total_b_tokens

/-- `vault.rs` `shares_to_b_tokens_down`. -/
def VaultData.shares_to_b_tokens_down (v : VaultData) (amount : Int) : Int :=
  fixedDivFloor amount v.total_shares v.total_b_tokens

/-- `vault.rs` `b_tokens_to_underlying_down`. -/
def VaultData.b_tokens_to_underlying_down (v : VaultData) (amount : Int) : Int :=
  fixedMulFloor amount v.b_rate SCALAR_12

/-- `vault.rs` `underlying_to_b_tokens_down`. -/
def VaultData.underlying_to_b_tokens_down (v : VaultData) (amount : Int) : Int :=
  fixedDivFloor amount v.b_rate SCALAR_12

/-- `vault.rs` `underlying_to_b_tokens_up`. -/
def VaultData.underlying_to_b_tokens_up (v : VaultData) (amount : Int) : Int :=
  fixedDivCeil amount v.b_rate SCALAR_12

/-- The take-rate fee chain of `update_rate` (`vault.rs` lines 90-101):
`total_b_tokens.fixed_mul_floor(new_rate - b_rate, SCALAR_12)
 .fixed_mul_floor(rate, SCALAR_7).fixed_div_floor(new_rate, SCALAR_12)`. -/
def takeRateFee (totalB bRate newRate rate : Int) : Int :=
  fixedDivFloor (fixedMulFloor (fixedMulFloor totalB (newRate - bRate) SCALAR_12) rate SCALAR_7)
    newRate SCALAR_12

/-- `update_rate` lines 119-120: `(100_000 * target_apr * time_elapsed) /
SECONDS_PER_YEAR + SCALAR_12`.  The Rust `/` truncates towards zero; its
operands here are non-negative, so it coincides with floor division. -/
def targetGrowthRate (rate : Int) (elapsed : Nat) : Int :=
  Int.fdiv (100000 * rate * (elapsed : Int)) SECONDS_PER_YEAR + SCALAR_12

/-- `update_rate` lines 122-125: `b_rate.fixed_mul_ceil(target_growth_rate, SCALAR_12)`. -/
def targetBRate (bRate rate : Int) (elapsed : Nat) : Int :=
  fixedMulCeil bRate (targetGrowthRate rate elapsed) SCALAR_12

/-- `update_rate` lines 128-133: `total_b_tokens
 .fixed_mul_floor(new_rate - target_b_rate, SCALAR_12)
 .fixed_div_floor(new_rate, SCALAR_12)`. -/
def bTokenDiff (elapsed : Nat) (totalB bRate newRate rate : Int) : Int :=
  fixedDivFloor (fixedMulFloor totalB (newRate - targetBRate bRate rate elapsed) SCALAR_12)
    newRate SCALAR_12

/-- The `admin_b_tokens` match of `update_rate` (`vault.rs` lines 90-145),
reached only when `new_rate > b_rate`.  The `u64` subtraction
`now - last_update_timestamp` traps on underflow. -/
def adminBTokens (now : Nat) (newRate : Int) (fee : Fee) (v : VaultData) : Except Panic Int :=
  if fee.rate_type = 0 then
    Except.ok (takeRateFee v.total_b_tokens v.b_rate newRate (fee.rate : Int))
  else if fee.rate_type = 1 ∨ fee.rate_type = 2 then
    if v.last_update_timestamp ≤ now then
      let diff := bTokenDiff (now - v.last_update_timestamp) v.total_b_tokens v.b_rate newRate
        (fee.rate : Int)
      if diff ≤ 0 ∧ fee.rate_type = 1 then Except.ok 0 else Except.ok diff
    else Except.error Panic.arithmeticOverflow
  else Except.ok 0

/-- `vault.rs` `VaultData::update_rate` (lines 76-157), with the pool's
`reserve_b_rate` answer passed in as `newRate` and the ledger timestamp as
`now`. -/
def update_rate (now : Nat) (newRate : Int) (fee : Fee) (v : VaultData) :
    Except Panic VaultData :=
  if newRate ≤ v.b_rate then
    Except.ok { v with last_update_timestamp := now, b_rate := newRate }
  else
    match adminBTokens now newRate fee v with
    | Except.error p => Except.error p
    | Except.ok adminB =>
      if adminB = 0 then
        Except.ok { v with last_update_timestamp := now, b_rate := newRate }
      else
        Except.ok
          { v with
            last_update_timestamp := now, b_rate := newRate,
            total_b_tokens := v.total_b_tokens - adminB,
            admin_balance := v.admin_balance + adminB }

/-- `validator.rs` `require_positive`. -/
def requirePositive (amount : Int) (err : ContractError) : Except Panic Unit :=
  if amount ≤ 0 then Except.error (Panic.contractError err) else Except.ok Unit.unit

/-- `vault.rs` `deposit` (lines 187-210), restricted to the vault ledger: the
reward touch (`update_rewards`) reads `total_shares` but mutates only reward
records, which are modelled separately.  Returns the new vault data, the
user's new share balance, and the `(b_tokens, shares)` pair the source
returns. -/
def deposit (now : Nat) (newRate : Int) (fee : Fee) (v : VaultData) (userShares : Int)
    (amount : Int) : Except Panic (VaultData × Int × Int × Int) :=
  match update_rate now newRate fee v with
  | Except.error p => Except.error p
  | Except.ok v1 =>
    let bTokens := v1.underlying_to_b_tokens_down amount
    match requirePositive bTokens ContractError.invalidBTokensMinted with
    | Except.error p => Except.error p
    | Except.ok _ =>
      let shares := v1.b_tokens_to_shares_down bTokens
      match requirePositive shares ContractError.invalidSharesMinted with
      | Except.error p => Except.error p
      | Except.ok _ =>
        Except.ok ({ v1 with
                       total_shares := v1.total_shares + shares,
                       total_b_tokens := v1.total_b_tokens + bTokens },
          userShares + shares, bTokens, shares)

/-- `vault.rs` `withdraw` (lines 226-257), restricted to the vault ledger as in
`deposit`. -/
def withdraw (now : Nat) (newRate : Int) (fee : Fee) (v : VaultData) (userShares : Int)
    (amount : Int) : Except Panic (VaultData × Int × Int × Int) :=
  match update_rate now newRate fee v with
  | Except.error p => Except.error p
  | Except.ok v1 =>
    let bTokens := v1.underlying_to_b_tokens_up amount
    match requirePositive bTokens ContractError.invalidBTokensBurnt with
    | Except.error p => Except.error p
    | Except.ok _ =>
      let shares := v1.b_tokens_to_shares_up bTokens
      match requirePositive shares ContractError.invalidSharesBurnt with
      | Except.error p => Except.error p
      | Except.ok _ =>
        if v1.total_shares < shares ∨ v1.total_b_tokens < bTokens then
          Except.error (Panic.contractError ContractError.insufficientReserves)
        else if userShares < shares then
          Except.error (Panic.contractError ContractError.balanceError)
        else
          Except.ok ({ v1 with
                         total_shares := v1.total_shares - shares,
                         total_b_tokens := v1.total_b_tokens - bTokens },
            userShares - shares, bTokens, shares)

/-- `vault.rs` `admin_deposit` (lines 268-278). -/
def admin_deposit (now : Nat) (newRate : Int) (fee : Fee) (v : VaultData) (amount : Int) :
    Except Panic (VaultData × Int) :=
  match update_rate now newRate fee v with
  | Except.error p => Except.error p
  | Except.ok v1 =>
    let bTokens := v1.underlying_to_b_tokens_down amount
    match requirePositive bTokens ContractError.invalidBTokensMinted with
    | Except.error p => Except.error p
    | Except.ok _ =>
      Except.ok ({ v1 with admin_balance := v1.admin_balance + bTokens }, bTokens)

/-- `vault.rs` `admin_withdraw` (lines 292-305). -/
def admin_withdraw (now : Nat) (newRate : Int) (fee : Fee) (v : VaultData) (amount : Int) :
    Except Panic (VaultData × Int) :=
  match update_rate now newRate fee v with
  | Except.error p => Except.error p
  | Except.ok v1 =>
    let bTokens := v1.underlying_to_b_tokens_up amount
    match requirePositive bTokens ContractError.invalidBTokensBurnt with
    | Except.error p => Except.error p
    | Except.ok _ =>
      if v1.admin_balance < bTokens then
        Except.error (Panic.contractError ContractError.balanceError)
      else
        Except.ok ({ v1 with admin_balance := v1.admin_balance - bTokens }, bTokens)

/-- `storage.rs` `RewardData`. -/
structure RewardData where
  expiration : Nat
  eps : Nat
  last_time : Nat
  index : Int
  deriving DecidableEq, Repr

/-- `storage.rs` `UserRewards`. -/
structure UserRewards where
  index : Int
  accrued : Int
  deriving DecidableEq, Repr

/-- `rewards.rs` `load_updated_reward_data` (lines 152-188), applied to the
stored data `rd` of the reward token (`storage::get_reward_data`'s `Some`
case).  The `u64` subtraction `max_timestamp - last_time` traps on
underflow (the test-suite pins this with
`should_panic(expected = "attempt to subtract with overflow")`). -/
def load_updated_reward_data (now : Nat) (totalShares : Int) (rd : RewardData) :
    Except Panic RewardData :=
  if rd.expiration ≤ rd.last_time ∨ now = rd.last_time ∨ rd.eps = 0 ∨ totalShares = 0 then
    Except.ok rd
  else
    let maxTimestamp := if rd.expiration < now then rd.expiration else now
    if rd.last_time ≤ maxTimestamp then
      let additionalIdx :=
        fixedDivFloor (((maxTimestamp - rd.last_time : Nat) : Int) * (rd.eps : Int))
          totalShares SCALAR_7
      Except.ok { rd with index := additionalIdx + rd.index, last_time := now }
    else Except.error Panic.arithmeticOverflow

/-- `rewards.rs` `set_user_rewards` (lines 249-264): the stored `UserRewards`
record and the amount returned to the caller. -/
def set_user_rewards (index : Int) (accrued : Int) (toClaim : Bool) : UserRewards × Int :=
  if toClaim then ({ index := index, accrued := 0 }, accrued)
  else ({ index := index, accrued := accrued }, 0)

/-- `rewards.rs` `update_user_rewards` (lines 215-247): takes the (already
updated) reward data, the stored `UserRewards` of the user if any
(`storage::get_user_rewards`), and the user's shares; returns the stored
record after the call together with the claimed amount.  In the
no-accrual/no-claim path the source writes nothing, so the stored record is
the old one. -/
def update_user_rewards (rd : RewardData) (userData : Option UserRewards) (userShares : Int)
    (toClaim : Bool) : UserRewards × Int :=
  match userData with
  | Option.some ud =>
    if ud.index ≠ rd.index ∨ toClaim then
      let accrual := ud.accrued +
        (if userShares ≠ 0 ∧ ud.index < rd.index then
          fixedMulFloor userShares (rd.index - ud.index) SCALAR_7
        else 0)
      set_user_rewards rd.index accrual toClaim
    else (ud, 0)
  | Option.none =>
    if userShares = 0 then set_user_rewards rd.index 0 toClaim
    else set_user_rewards rd.index (fixedMulFloor userShares rd.index SCALAR_7) toClaim

/-- `rewards.rs` `calculate_eps` (lines 266-272).  The Rust `/` truncates
towards zero; both call sites pass a positive `reward_amount`, and for a
non-positive quotient the function fails anyway, so floor division is
faithful. -/
def calculate_eps (rewardAmount : Int) (rewardPeriod : Nat) : Except Panic Nat :=
  let newEps := Int.fdiv rewardAmount (rewardPeriod : Int)
  if newEps ≤ 0 ∨ U64_MAX < newEps then
    Except.error (Panic.contractError ContractError.invalidRewardConfig)
  else Except.ok newEps.toNat

/-- The reward-distributor storage as `set_rewards` sees it: the currently
active reward token (if any) and the per-token stored `RewardData`.  Tokens
are identified by `Nat` ids. -/
structure RewardsState where
  reward_token : Option Nat
  reward_data : Nat → Option RewardData

/-- The no-active-rewards tail of `rewards.rs` `set_rewards` (lines 118-140):
carry over the lazily-updated index of any old data stored for `token`
(else 0), compute `eps` from `amount` alone, store the new data and mark
`token` active. -/
def setRewardsFallthrough (now : Nat) (totalShares : Int) (s : RewardsState) (token : Nat)
    (amount : Int) (expiration : Nat) : Except Panic RewardsState :=
  match (match s.reward_data token with
         | Option.some rd0 =>
           (load_updated_reward_data now totalShares rd0).map (fun rd => rd.index)
         | Option.none => Except.ok 0) with
  | Except.error p => Except.error p
  | Except.ok rewardIndex =>
    match calculate_eps amount (expiration - now) with
    | Except.error p => Except.error p
    | Except.ok newEps =>
      Except.ok
        { reward_token := Option.some token,
                  reward_data := fun t =>
                    if t = token then
                      Option.some { expiration := expiration, eps := newEps,
                                    last_time := now, index := rewardIndex }
                    else s.reward_data t }

/-- `rewards.rs` `set_rewards` (lines 69-140).  `reward_period = expiration -
now` is a `u64` subtraction and traps when `expiration < now`; the period
and amount checks precede the collaborator token transfer, which is external
and not modelled.  `update_reward_data`'s persist of the lazily-accrued
current data is reflected in the intermediate state `s1`. -/
def set_rewards (now : Nat) (totalShares : Int) (s : RewardsState) (token : Nat)
    (amount : Int) (expiration : Nat) : Except Panic RewardsState :=
  if expiration < now then Except.error Panic.arithmeticOverflow
  else if expiration - now = 0 ∨ amount ≤ 0 then
    Except.error (Panic.contractError ContractError.invalidRewardConfig)
  else
    match s.reward_token with
    | Option.some curToken =>
      match s.reward_data curToken with
      | Option.some rd0 =>
        match load_updated_reward_data now totalShares rd0 with
        | Except.error p => Except.error p
        | Except.ok rd1 =>
          let s1 : RewardsState :=
            { reward_token := s.reward_token,
              reward_data := fun t => if t = curToken then Option.some rd1 else s.reward_data t }
          if now < rd1.expiration then
            if curToken ≠ token ∨ expiration < rd1.expiration then
              Except.error (Panic.contractError ContractError.invalidRewardConfig)
            else
              let toEmitTotal := amount + ((rd1.expiration - now : Nat) : Int) * (rd1.eps : Int)
              match calculate_eps toEmitTotal (expiration - now) with
              | Except.error p => Except.error p
              | Except.ok newEps =>
                Except.ok
                  { reward_token := s1.reward_token,
                            reward_data := fun t =>
                              if t = token then
                                Option.some { expiration := expiration, eps := newEps,
                                              last_time := now, index := rd1.index }
                              else s1.reward_data t }
          else setRewardsFallthrough now totalShares s1 token amount expiration
      | Option.none => setRewardsFallthrough now totalShares s token amount expiration
    | Option.none => setRewardsFallthrough now totalShares s token amount expiration

/-! Basic facts about the floor/ceiling divisions used by the fixed-point
operations. -/

lemma fdiv_mul_le (a : Int) {b : Int} (hb : 0 < b) : a.fdiv b * b ≤ a := by
  rw [Int.fdiv_eq_ediv _ hb.le]
  exact Int.ediv_mul_le a hb.ne'

lemma le_cdiv_mul (a : Int) {b : Int} (hb : 0 < b) : a ≤ cdiv a b * b := by
  unfold cdiv
  have h := fdiv_mul_le (-a) hb
  rw [neg_mul]
  linarith

lemma cdiv_nonneg {a b : Int} (ha : 0 ≤ a) (hb : 0 < b) : 0 ≤ cdiv a b := by
  by_contra hcon
  push_neg at hcon
  have h1 := le_cdiv_mul a hb
  have h2 : cdiv a b ≤ -1 := by omega
  nlinarith

lemma scalar7_pos : (0 : Int) < SCALAR_7 := by norm_num [SCALAR_7]

lemma scalar12_pos : (0 : Int) < SCALAR_12 := by norm_num [SCALAR_12]

/-! Bounds on the per-policy admin fee. -/

lemma takeRateFee_bounds {totalB bRate newRate rate : Int} (hT : 0 ≤ totalB)
    (hb : 0 < bRate) (hlt : bRate < newRate) (hr0 : 0 ≤ rate) (hr7 : rate ≤ SCALAR_7) :
    0 ≤ takeRateFee totalB bRate newRate rate ∧ takeRateFee totalB bRate newRate rate ≤ totalB := by
  have hnew : 0 < newRate := hb.trans hlt
  unfold takeRateFee fixedDivFloor fixedMulFloor
  set t1 := Int.fdiv (totalB * (newRate - bRate)) SCALAR_12 with ht1
  set t2 := Int.fdiv (t1 * rate) SCALAR_7 with ht2
  have h1n : 0 ≤ t1 := Int.fdiv_nonneg (mul_nonneg hT (by linarith)) scalar12_pos.le
  have h1b : t1 * SCALAR_12 ≤ totalB * (newRate - bRate) := fdiv_mul_le _ scalar12_pos
  have h2n : 0 ≤ t2 := Int.fdiv_nonneg (mul_nonneg h1n hr0) scalar7_pos.le
  have h2b : t2 * SCALAR_7 ≤ t1 * rate := fdiv_mul_le _ scalar7_pos
  have h1r : t1 * rate ≤ t1 * SCALAR_7 := mul_le_mul_of_nonneg_left hr7 h1n
  have h21 : t2 ≤ t1 := le_of_mul_le_mul_right (by linarith) scalar7_pos
  refine ⟨Int.fdiv_nonneg (mul_nonneg h2n scalar12_pos.le) hnew.le, ?_⟩
  have h3b : Int.fdiv (t2 * SCALAR_12) newRate * newRate ≤ t2 * SCALAR_12 :=
    fdiv_mul_le _ hnew
  have h4 : t2 * SCALAR_12 ≤ t1 * SCALAR_12 := mul_le_mul_of_nonneg_right h21 scalar12_pos.le
  have h5 : totalB * (newRate - bRate) ≤ totalB * newRate :=
    mul_le_mul_of_nonneg_left (by linarith) hT
  exact le_of_mul_le_mul_right (by linarith) hnew

lemma targetGrowthRate_nonneg {rate : Int} (hr : 0 ≤ rate) (elapsed : Nat) :
    0 ≤ targetGrowthRate rate elapsed := by
  unfold targetGrowthRate
  have h1 : 0 ≤ Int.fdiv (100000 * rate * (elapsed : Int)) SECONDS_PER_YEAR :=
    Int.fdiv_nonneg (by positivity) (by norm_num [SECONDS_PER_YEAR])
  have h2 := scalar12_pos
  linarith

lemma targetBRate_nonneg {bRate rate : Int} (hb : 0 ≤ bRate) (hr : 0 ≤ rate) (elapsed : Nat) :
    0 ≤ targetBRate bRate rate elapsed := by
  unfold targetBRate fixedMulCeil
  exact cdiv_nonneg (mul_nonneg hb (targetGrowthRate_nonneg hr elapsed)) scalar12_pos

lemma bTokenDiff_le {elapsed : Nat} {totalB bRate newRate rate : Int} (hT : 0 ≤ totalB)
    (hb : 0 < bRate) (hlt : bRate < newRate) (hr : 0 ≤ rate) :
    bTokenDiff elapsed totalB bRate newRate rate ≤ totalB := by
  have hnew : 0 < newRate := hb.trans hlt
  have htg : 0 ≤ targetBRate bRate rate elapsed := targetBRate_nonneg hb.le hr elapsed
  unfold bTokenDiff fixedDivFloor fixedMulFloor
  set u := Int.fdiv (totalB * (newRate - targetBRate bRate rate elapsed)) SCALAR_12 with hu
  have hub : u * SCALAR_12 ≤ totalB * (newRate - targetBRate bRate rate elapsed) :=
    fdiv_mul_le _ scalar12_pos
  have h2 : Int.fdiv (u * SCALAR_12) newRate * newRate ≤ u * SCALAR_12 :=
    fdiv_mul_le _ hnew
  have h3 : totalB * (newRate - targetBRate bRate rate elapsed) ≤ totalB * newRate :=
    mul_le_mul_of_nonneg_left (by linarith) hT
  exact le_of_mul_le_mul_right (by linarith) hnew

/-! Characterizations of `update_rate`. -/

lemma adminBTokens_take {now : Nat} {newRate : Int} {fee : Fee} {v : VaultData}
    (h : fee.rate_type = 0) :
    adminBTokens now newRate fee v =
      Except.ok (takeRateFee v.total_b_tokens v.b_rate newRate (fee.rate : Int)) := by
  unfold adminBTokens
  rw [if_pos h]

lemma adminBTokens_capped {now : Nat} {newRate : Int} {fee : Fee} {v : VaultData}
    (h12 : fee.rate_type = 1 ∨ fee.rate_type = 2) (hts : v.last_update_timestamp ≤ now) :
    adminBTokens now newRate fee v =
      Except.ok
        (if bTokenDiff (now - v.last_update_timestamp) v.total_b_tokens v.b_rate newRate
              (fee.rate : Int) ≤ 0 ∧ fee.rate_type = 1 then 0
         else bTokenDiff (now - v.last_update_timestamp) v.total_b_tokens v.b_rate newRate
              (fee.rate : Int)) := by
  have hne0 : ¬ fee.rate_type = 0 := by rcases h12 with h | h <;> omega
  unfold adminBTokens
  rw [if_neg hne0, if_pos h12, if_pos hts]
  dsimp only
  split <;> rfl

lemma update_rate_eq_of_adminB {now : Nat} {newRate : Int} {fee : Fee} {v : VaultData}
    {a : Int} (hlt : v.b_rate < newRate)
    (hA : adminBTokens now newRate fee v = Except.ok a) :
    update_rate now newRate fee v =
      Except.ok
        { v with
          last_update_timestamp := now, b_rate := newRate,
          total_b_tokens := v.total_b_tokens - a,
          admin_balance := v.admin_balance + a } := by
  unfold update_rate
  rw [if_neg (not_le.mpr hlt), hA]
  dsimp only
  by_cases h0 : a = 0
  · subst h0
    simp
  · rw [if_neg h0]

/-! Claim-refinement definitions: these two follow the SPEC's wording (not the
source) and exist only to be compared with the source-derived definitions. -/

/-- The C1 claim's fee formula, as worded: `total_b_tokens * (pool_rate -
b_rate) / pool_rate * rate / 10^7` with every step floored, i.e. the division
by `pool_rate` performed before the `rate` step.  Compare with the source's
`takeRateFee`, which divides by `SCALAR_12`, applies `rate`, and divides by
`pool_rate` only at the end. -/
def takeRateFeeSpec (totalB bRate poolRate rate : Int) : Int :=
  Int.fdiv (Int.fdiv (totalB * (poolRate - bRate)) poolRate * rate) SCALAR_7

/-- The C8 claim's capped fee, as worded: identical to the source pipeline
except that `target_growth` is rounded UP (`ceil`), where the source's
`target_growth_rate` uses the truncating Rust `/` (floor on its non-negative
operands). -/
def cappedFeeSpec (elapsed : Nat) (totalB bRate poolRate rate : Int) : Int :=
  let growth := cdiv (100000 * rate * (elapsed : Int)) SECONDS_PER_YEAR + SCALAR_12
  let target := cdiv (bRate * growth) SCALAR_12
  let diff := Int.fdiv (Int.fdiv (totalB * (poolRate - target)) SCALAR_12 * SCALAR_12) poolRate
  if diff ≤ 0 then 0 else diff

/-- C1, counterexample to the claimed formula: with `total_b_tokens = 3`,
`b_rate = 10^12`, `pool_rate = 2*10^12`, `rate = 9999999` (a legal rate in
`[0, 10^7]`), the source's `update_rate` credits the admin `1` b-token, while
the claim's formula `⌊⌊3*(2e12-1e12)/2e12⌋*9999999/10^7⌋` is `0`. -/
theorem c1_claim_formula_counterexample :
    update_rate 5 2000000000000 { rate_type := 0, rate := 9999999 }
        { last_update_timestamp := 0, b_rate := 1000000000000, total_shares := 3,
          total_b_tokens := 3, admin_balance := 0 } =
      Except.ok
        { last_update_timestamp := 5, b_rate := 2000000000000, total_shares := 3,
          total_b_tokens := 2, admin_balance := 1 } ∧
    takeRateFeeSpec 3 1000000000000 2000000000000 9999999 = 0 ∧ (1 : Int) ≠ (0 : Int) :=
  ⟨rfl, rfl, by decide⟩

/-- C1 (amended): in `refresh` under the TakeRate policy, for every state with
`pool_rate > b_rate`, the admin fee in b-tokens equals
`⌊⌊⌊total_b_tokens*(pool_rate − b_rate)/10^12⌋ * rate / 10^7⌋ * 10^12 / pool_rate⌋`
(the period's yield at 12-decimal scale, the take rate applied, then converted
to b-tokens by the division by `pool_rate`, every step floored), and that
amount is added to `admin_balance` and subtracted from `total_b_tokens`;
in particular, starting from `total_b_tokens = 1000_0000000`,
`total_shares = 1200_0000000`, `rate = 0_1000000` and `b_rate` rising from
`1_000_000_000_000` to `1_050_000_000_000` over 5 seconds, `admin_balance`
increases by the positive amount `4_7619047` and `total_b_tokens` decreases by
exactly that amount. -/
theorem c1_takeRate_fee_applied :
    (∀ (now : Nat) (newRate : Int) (fee : Fee) (v : VaultData),
       fee.rate_type = 0 → v.b_rate < newRate →
       update_rate now newRate fee v =
         Except.ok
           { v with
             last_update_timestamp := now, b_rate := newRate,
             total_b_tokens := v.total_b_tokens -
             takeRateFee v.total_b_tokens v.b_rate newRate (fee.rate : Int),
             admin_balance := v.admin_balance +
             takeRateFee v.total_b_tokens v.b_rate newRate (fee.rate : Int) }) ∧
    (update_rate 5 1050000000000 { rate_type := 0, rate := 1000000 }
        { last_update_timestamp := 0, b_rate := 1000000000000, total_shares := 12000000000,
          total_b_tokens := 10000000000, admin_balance := 0 } =
      Except.ok
        { last_update_timestamp := 5, b_rate := 1050000000000,
          total_shares := 12000000000, total_b_tokens := 10000000000 - 47619047,
          admin_balance := 0 + 47619047 } ∧
      (0 : Int) < 47619047) := by
  constructor
  · intro now newRate fee v hrt hlt
    exact update_rate_eq_of_adminB hlt (adminBTokens_take hrt)
  · exact ⟨rfl, by decide⟩

/-- Witness for C1 at the spec's own scenario input. -/
theorem c1_takeRate_fee_applied_witness :
    (Fee.mk 0 1000000).rate_type = 0 ∧
    (VaultData.mk 0 1000000000000 12000000000 10000000000 0).b_rate < 1050000000000 ∧
    update_rate 5 1050000000000 (Fee.mk 0 1000000)
        (VaultData.mk 0 1000000000000 12000000000 10000000000 0) =
      Except.ok
        { last_update_timestamp := 5, b_rate := 1050000000000,
          total_shares := 12000000000,
          total_b_tokens := 10000000000 -
          takeRateFee 10000000000 1000000000000 1050000000000 1000000,
          admin_balance := 0 +
          takeRateFee 10000000000 1000000000000 1050000000000 1000000 } :=
  ⟨rfl, by decide,
    c1_takeRate_fee_applied.1 5 1050000000000 (Fee.mk 0 1000000)
      (VaultData.mk 0 1000000000000 12000000000 10000000000 0) rfl (by decide)⟩

/-- C3: in `refresh` with the pool rate above the stored rate, when the
computed b-token diff is non-positive: under CappedRate (`rate_type = 1`) the
admin earns nothing — only `b_rate` and the timestamp change — while under
FixedRate (`rate_type = 2`) a strictly negative diff is applied unmodified:
`admin_balance` decreases (possibly below zero) by `|diff|` and
`total_b_tokens` increases by exactly `|diff|`, the (floor-computed) shortfall
between target yield and actual yield in b-tokens. -/
theorem c3_below_target_policies (now : Nat) (newRate : Int) (fee : Fee) (v : VaultData)
    (hts : v.last_update_timestamp ≤ now) (hlt : v.b_rate < newRate) :
    (fee.rate_type = 1 →
       bTokenDiff (now - v.last_update_timestamp) v.total_b_tokens v.b_rate newRate
           (fee.rate : Int) ≤ 0 →
       update_rate now newRate fee v =
         Except.ok { v with last_update_timestamp := now, b_rate := newRate }) ∧
    (fee.rate_type = 2 →
       bTokenDiff (now - v.last_update_timestamp) v.total_b_tokens v.b_rate newRate
           (fee.rate : Int) < 0 →
       update_rate now newRate fee v =
         Except.ok
           { v with
             last_update_timestamp := now, b_rate := newRate,
             total_b_tokens := v.total_b_tokens -
               bTokenDiff (now - v.last_update_timestamp) v.total_b_tokens v.b_rate newRate
                 (fee.rate : Int),
             admin_balance := v.admin_balance +
               bTokenDiff (now - v.last_update_timestamp) v.total_b_tokens v.b_rate newRate
                 (fee.rate : Int) } ∧
       v.admin_balance +
           bTokenDiff (now - v.last_update_timestamp) v.total_b_tokens v.b_rate newRate
             (fee.rate : Int) < v.admin_balance ∧
       v.total_b_tokens -
           bTokenDiff (now - v.last_update_timestamp) v.total_b_tokens v.b_rate newRate
             (fee.rate : Int) =
         v.total_b_tokens +
           -(bTokenDiff (now - v.last_update_timestamp) v.total_b_tokens v.b_rate newRate
             (fee.rate : Int))) := by
  constructor
  · intro h1 hd
    have hA := @adminBTokens_capped now newRate fee v (Or.inl h1) hts
    rw [if_pos ⟨hd, h1⟩] at hA
    have h := update_rate_eq_of_adminB hlt hA
    simpa using h
  · intro h2 hd
    have hA := @adminBTokens_capped now newRate fee v (Or.inr h2) hts
    rw [if_neg (by simp [h2])] at hA
    exact ⟨update_rate_eq_of_adminB hlt hA, by linarith, by ring⟩

/-- Witness for C3 (FixedRate part): actual growth `1e12 → 1e12+1` over 31536
seconds against a 10% target forces the admin to supplement `100_0000`
b-tokens. -/
theorem c3_below_target_policies_witness :
    (VaultData.mk 0 1000000000000 12000000000 10000000000 0).last_update_timestamp ≤ 31536 ∧
    (VaultData.mk 0 1000000000000 12000000000 10000000000 0).b_rate < 1000000000001 ∧
    update_rate 31536 1000000000001 (Fee.mk 2 1000000)
        (VaultData.mk 0 1000000000000 12000000000 10000000000 0) =
      Except.ok
        { last_update_timestamp := 31536, b_rate := 1000000000001,
          total_shares := 12000000000,
          total_b_tokens := 10000000000 -
            bTokenDiff 31536 10000000000 1000000000000 1000000000001 1000000,
          admin_balance := 0 +
            bTokenDiff 31536 10000000000 1000000000000 1000000000001 1000000 } :=
  ⟨by decide, by decide,
    ((c3_below_target_policies 31536 1000000000001 (Fee.mk 2 1000000)
        (VaultData.mk 0 1000000000000 12000000000 10000000000 0)
        (by decide) (by decide)).2 rfl (by decide)).1⟩

/-- C8, counterexample to the claimed "ceil" rounding of `target_growth`: with
`rate = 1`, one elapsed second, `b_rate = 10^12`, `pool_rate = 10^12 + 2` and
`total_b_tokens = 10^12` under CappedRate, the source floors
`100000*1*1/SECONDS_PER_YEAR` to `0` and credits the admin `1` b-token, while
the claim's ceil pipeline yields a fee of `0`. -/
theorem c8_claim_rounding_counterexample :
    update_rate 1 1000000000002 { rate_type := 1, rate := 1 }
        { last_update_timestamp := 0, b_rate := 1000000000000,
          total_shares := 1000000000000, total_b_tokens := 1000000000000,
          admin_balance := 0 } =
      Except.ok
        { last_update_timestamp := 1, b_rate := 1000000000002,
          total_shares := 1000000000000, total_b_tokens := 999999999999,
          admin_balance := 1 } ∧
    cappedFeeSpec 1 1000000000000 1000000000000 1000000000002 1 = 0 ∧ (1 : Int) ≠ (0 : Int) :=
  ⟨rfl, rfl, by decide⟩

/-- C8 (amended): in `refresh` under CappedRate or FixedRate,
`target_growth = 1 + rate*elapsed/seconds_per_year` is computed at scale
`10^12` with the division FLOORED (truncating Rust division on non-negative
operands), `target_rate = b_rate * target_growth` is computed rounding UP
(ceil), and `diff = ⌊⌊total_b_tokens*(pool_rate − target_rate)/10^12⌋ * 10^12
/ pool_rate⌋` with floor (sign-preserving, i.e. rounding towards −∞); the
resulting fee (clamped to 0 for CappedRate when `diff ≤ 0`) is moved from
`total_b_tokens` to `admin_balance`. -/
theorem c8_capped_rate_rounding (now : Nat) (newRate : Int) (fee : Fee) (v : VaultData)
    (h12 : fee.rate_type = 1 ∨ fee.rate_type = 2)
    (hts : v.last_update_timestamp ≤ now) (hlt : v.b_rate < newRate) :
    update_rate now newRate fee v =
      Except.ok
        { v with
          last_update_timestamp := now, b_rate := newRate,
          total_b_tokens := v.total_b_tokens -
            (if bTokenDiff (now - v.last_update_timestamp) v.total_b_tokens v.b_rate newRate
                  (fee.rate : Int) ≤ 0 ∧ fee.rate_type = 1 then 0
             else bTokenDiff (now - v.last_update_timestamp) v.total_b_tokens v.b_rate newRate
                  (fee.rate : Int)),
          admin_balance := v.admin_balance +
            (if bTokenDiff (now - v.last_update_timestamp) v.total_b_tokens v.b_rate newRate
                  (fee.rate : Int) ≤ 0 ∧ fee.rate_type = 1 then 0
             else bTokenDiff (now - v.last_update_timestamp) v.total_b_tokens v.b_rate newRate
                  (fee.rate : Int)) } ∧
    bTokenDiff (now - v.last_update_timestamp) v.total_b_tokens v.b_rate newRate
        (fee.rate : Int) =
      Int.fdiv
        (Int.fdiv
          (v.total_b_tokens *
            (newRate -
              cdiv
                (v.b_rate *
                  (Int.fdiv
                    (100000 * (fee.rate : Int) * ((now - v.last_update_timestamp : Nat) : Int))
                    SECONDS_PER_YEAR + SCALAR_12))
                SCALAR_12))
          SCALAR_12 * SCALAR_12)
        newRate :=
  ⟨update_rate_eq_of_adminB hlt (adminBTokens_capped h12 hts), rfl⟩

/-- Witness for C8 at the source test's capped-rate vector: a 5% yield over a
quarter year against a 5% cap leaves the admin `35_7142857` b-tokens. -/
theorem c8_capped_rate_rounding_witness :
    ((Fee.mk 1 500000).rate_type = 1 ∨ (Fee.mk 1 500000).rate_type = 2) ∧
    (VaultData.mk 0 1000000000000 12000000000 10000000000 0).last_update_timestamp ≤ 7884000 ∧
    (VaultData.mk 0 1000000000000 12000000000 10000000000 0).b_rate < 1050000000000 ∧
    update_rate 7884000 1050000000000 (Fee.mk 1 500000)
        (VaultData.mk 0 1000000000000 12000000000 10000000000 0) =
      Except.ok
        { last_update_timestamp := 7884000, b_rate := 1050000000000,
          total_shares := 12000000000,
          total_b_tokens := 10000000000 -
            (if bTokenDiff 7884000 10000000000 1000000000000 1050000000000 500000 ≤ 0 ∧
                  (Fee.mk 1 500000).rate_type = 1 then 0
             else bTokenDiff 7884000 10000000000 1000000000000 1050000000000 500000),
          admin_balance := 0 +
            (if bTokenDiff 7884000 10000000000 1000000000000 1050000000000 500000 ≤ 0 ∧
                  (Fee.mk 1 500000).rate_type = 1 then 0
             else bTokenDiff 7884000 10000000000 1000000000000 1050000000000 500000) } :=
  ⟨Or.inl rfl, by decide, by decide,
    (c8_capped_rate_rounding 7884000 1050000000000 (Fee.mk 1 500000)
      (VaultData.mk 0 1000000000000 12000000000 10000000000 0)
      (Or.inl rfl) (by decide) (by decide)).1⟩

/-! Rounding direction of the individual conversions. -/

lemma underlying_to_b_tokens_down_le {v : VaultData} (a : Int) (hb : 0 < v.b_rate) :
    v.underlying_to_b_tokens_down a * v.b_rate ≤ a * SCALAR_12 := by
  unfold VaultData.underlying_to_b_tokens_down fixedDivFloor
  exact fdiv_mul_le _ hb

lemma le_underlying_to_b_tokens_up {v : VaultData} (a : Int) (hb : 0 < v.b_rate) :
    a * SCALAR_12 ≤ v.underlying_to_b_tokens_up a * v.b_rate := by
  unfold VaultData.underlying_to_b_tokens_up fixedDivCeil
  exact le_cdiv_mul _ hb

lemma b_tokens_to_shares_down_le {v : VaultData} (b : Int) (hS : 0 < v.total_shares)
    (hT : 0 < v.total_b_tokens) :
    v.b_tokens_to_shares_down b * v.total_b_tokens ≤ b * v.total_shares := by
  unfold VaultData.b_tokens_to_shares_down fixedMulFloor
  rw [if_neg (by push_neg; exact ⟨hS.ne', hT.ne'⟩)]
  exact fdiv_mul_le _ hT

lemma le_b_tokens_to_shares_up {v : VaultData} (b : Int) (hS : 0 < v.total_shares)
    (hT : 0 < v.total_b_tokens) :
    b * v.total_shares ≤ v.b_tokens_to_shares_up b * v.total_b_tokens := by
  unfold VaultData.b_tokens_to_shares_up fixedMulCeil
  rw [if_neg (by push_neg; exact ⟨hS.ne', hT.ne'⟩)]
  exact le_cdiv_mul _ hT

/-! Shapes of successful `deposit`/`withdraw`/admin runs. -/

lemma deposit_ok_elim {now : Nat} {newRate : Int} {fee : Fee} {v : VaultData}
    {us amount : Int} {v1 : VaultData} {us1 b sh : Int}
    (h : deposit now newRate fee v us amount = Except.ok (v1, us1, b, sh)) :
    ∃ v2, update_rate now newRate fee v = Except.ok v2 ∧
      b = v2.underlying_to_b_tokens_down amount ∧ 0 < b ∧
      sh = v2.b_tokens_to_shares_down b ∧ 0 < sh ∧
      v1 = { v2 with
               total_shares := v2.total_shares + sh,
               total_b_tokens := v2.total_b_tokens + b } ∧
      us1 = us + sh := by
  unfold deposit at h
  cases hu : update_rate now newRate fee v with
  | error p => rw [hu] at h; exact absurd h (by simp)
  | ok v2 =>
    rw [hu] at h
    dsimp only at h
    unfold requirePositive at h
    by_cases h1 : v2.underlying_to_b_tokens_down amount ≤ 0
    · rw [if_pos h1] at h; exact absurd h (by simp)
    · rw [if_neg h1] at h
      dsimp only at h
      by_cases h2 : v2.b_tokens_to_shares_down (v2.underlying_to_b_tokens_down amount) ≤ 0
      · rw [if_pos h2] at h; exact absurd h (by simp)
      · rw [if_neg h2] at h
        dsimp only at h
        simp only [Except.ok.injEq, Prod.mk.injEq] at h
        obtain ⟨hv, hus, hb, hsh⟩ := h
        subst hb
        subst hsh
        subst hv
        subst hus
        exact ⟨v2, rfl, rfl, by omega, rfl, by omega, rfl, rfl⟩

lemma withdraw_ok_elim {now : Nat} {newRate : Int} {fee : Fee} {v : VaultData}
    {us amount : Int} {v1 : VaultData} {us1 b sh : Int}
    (h : withdraw now newRate fee v us amount = Except.ok (v1, us1, b, sh)) :
    ∃ v2, update_rate now newRate fee v = Except.ok v2 ∧
      b = v2.underlying_to_b_tokens_up amount ∧ 0 < b ∧
      sh = v2.b_tokens_to_shares_up b ∧ 0 < sh ∧
      sh ≤ v2.total_shares ∧ b ≤ v2.total_b_tokens ∧ sh ≤ us ∧
      v1 = { v2 with
               total_shares := v2.total_shares - sh,
               total_b_tokens := v2.total_b_tokens - b } ∧
      us1 = us - sh := by
  unfold withdraw at h
  cases hu : update_rate now newRate fee v with
  | error p => rw [hu] at h; exact absurd h (by simp)
  | ok v2 =>
    rw [hu] at h
    dsimp only at h
    unfold requirePositive at h
    by_cases h1 : v2.underlying_to_b_tokens_up amount ≤ 0
    · rw [if_pos h1] at h; exact absurd h (by simp)
    · rw [if_neg h1] at h
      dsimp only at h
      by_cases h2 : v2.b_tokens_to_shares_up (v2.underlying_to_b_tokens_up amount) ≤ 0
      · rw [if_pos h2] at h; exact absurd h (by simp)
      · rw [if_neg h2] at h
        dsimp only at h
        by_cases h3 : v2.total_shares < v2.b_tokens_to_shares_up (v2.underlying_to_b_tokens_up amount) ∨
            v2.total_b_tokens < v2.underlying_to_b_tokens_up amount
        · rw [if_pos h3] at h; exact absurd h (by simp)
        · rw [if_neg h3] at h
          by_cases h4 : us < v2.b_tokens_to_shares_up (v2.underlying_to_b_tokens_up amount)
          · rw [if_pos h4] at h; exact absurd h (by simp)
          · rw [if_neg h4] at h
            push_neg at h3 h4
            simp only [Except.ok.injEq, Prod.mk.injEq] at h
            obtain ⟨hv, hus, hb, hsh⟩ := h
            subst hb
            subst hsh
            subst hv
            subst hus
            exact ⟨v2, rfl, rfl, by omega, rfl, by omega, h3.1, h3.2, h4, rfl, rfl⟩

/-- C2: for every deposit, each conversion performed for the user rounds down —
the b-tokens minted satisfy `b * b_rate ≤ amount * 10^12`, the shares minted
satisfy `sh * total_b_tokens ≤ b * total_shares`, and hence are at most the
exact-ratio value `amount * 10^12 * total_shares / (total_b_tokens * b_rate)`;
for every withdraw, each conversion rounds up, so the b-tokens and shares
burned are at least the exact-ratio value.  All ratios are w.r.t. the
refreshed vault state `v2`, against which the source computes the
conversions. -/
theorem c2_rounding_bias (now : Nat) (newRate : Int) (fee : Fee) (v v2 : VaultData)
    (us amount : Int)
    (hu : update_rate now newRate fee v = Except.ok v2)
    (hS : 0 < v2.total_shares) (hT : 0 < v2.total_b_tokens) (hb : 0 < v2.b_rate) :
    (∀ v1 us1 b sh, deposit now newRate fee v us amount = Except.ok (v1, us1, b, sh) →
       b * v2.b_rate ≤ amount * SCALAR_12 ∧
       sh * v2.total_b_tokens ≤ b * v2.total_shares ∧
       sh * (v2.total_b_tokens * v2.b_rate) ≤ amount * SCALAR_12 * v2.total_shares) ∧
    (∀ v1 us1 b sh, withdraw now newRate fee v us amount = Except.ok (v1, us1, b, sh) →
       amount * SCALAR_12 ≤ b * v2.b_rate ∧
       b * v2.total_shares ≤ sh * v2.total_b_tokens ∧
       amount * SCALAR_12 * v2.total_shares ≤ sh * (v2.total_b_tokens * v2.b_rate)) := by
  constructor
  · intro v1 us1 b sh h
    obtain ⟨v2x, hux, hbdef, _, hshdef, _, _, _⟩ := deposit_ok_elim h
    rw [hu] at hux
    injection hux with hvx
    subst hvx
    have h1 : b * v2.b_rate ≤ amount * SCALAR_12 := by
      rw [hbdef]; exact underlying_to_b_tokens_down_le amount hb
    have h2 : sh * v2.total_b_tokens ≤ b * v2.total_shares := by
      rw [hshdef]; exact b_tokens_to_shares_down_le b hS hT
    refine ⟨h1, h2, ?_⟩
    calc sh * (v2.total_b_tokens * v2.b_rate) = sh * v2.total_b_tokens * v2.b_rate := by ring
      _ ≤ b * v2.total_shares * v2.b_rate := mul_le_mul_of_nonneg_right h2 hb.le
      _ = b * v2.b_rate * v2.total_shares := by ring
      _ ≤ amount * SCALAR_12 * v2.total_shares := mul_le_mul_of_nonneg_right h1 hS.le
  · intro v1 us1 b sh h
    obtain ⟨v2x, hux, hbdef, _, hshdef, _, _, _, _, _⟩ := withdraw_ok_elim h
    rw [hu] at hux
    injection hux with hvx
    subst hvx
    have h1 : amount * SCALAR_12 ≤ b * v2.b_rate := by
      rw [hbdef]; exact le_underlying_to_b_tokens_up amount hb
    have h2 : b * v2.total_shares ≤ sh * v2.total_b_tokens := by
      rw [hshdef]; exact le_b_tokens_to_shares_up b hS hT
    refine ⟨h1, h2, ?_⟩
    calc amount * SCALAR_12 * v2.total_shares ≤ b * v2.b_rate * v2.total_shares :=
        mul_le_mul_of_nonneg_right h1 hS.le
      _ = b * v2.total_shares * v2.b_rate := by ring
      _ ≤ sh * v2.total_b_tokens * v2.b_rate := mul_le_mul_of_nonneg_right h2 hb.le
      _ = sh * (v2.total_b_tokens * v2.b_rate) := by ring

/-- Witness for C2 (deposit part) at a flat-rate refresh. -/
theorem c2_rounding_bias_witness :
    update_rate 5 1000000000000 (Fee.mk 0 0)
        (VaultData.mk 0 1000000000000 1200 1000 0) =
      Except.ok (VaultData.mk 5 1000000000000 1200 1000 0) ∧
    (0 : Int) < 1200 ∧ (0 : Int) < 1000 ∧ (0 : Int) < 1000000000000 ∧
    (deposit 5 1000000000000 (Fee.mk 0 0) (VaultData.mk 0 1000000000000 1200 1000 0) 0 100 =
        Except.ok (VaultData.mk 5 1000000000000 1320 1100 0, 120, 100, 120) →
      (100 : Int) * 1000000000000 ≤ 100 * SCALAR_12 ∧
      (120 : Int) * 1000 ≤ 100 * 1200 ∧
      (120 : Int) * (1000 * 1000000000000) ≤ 100 * SCALAR_12 * 1200) :=
  ⟨rfl, by decide, by decide, by decide,
    (c2_rounding_bias 5 1000000000000 (Fee.mk 0 0) (VaultData.mk 0 1000000000000 1200 1000 0)
      (VaultData.mk 5 1000000000000 1200 1000 0) 0 100 rfl (by decide) (by decide)
      (by decide)).1 (VaultData.mk 5 1000000000000 1320 1100 0) 120 100 120⟩

/-- C5: for every withdraw request against the refreshed state `v2`, after the
two round-up conversions the operation fails with `InsufficientReserves` when
the shares to burn exceed `total_shares` or the b-tokens to burn exceed
`total_b_tokens`, and fails with `BalanceError` when the shares to burn exceed
the user's share balance; a failing run returns `Except.error`, which in this
embedding carries no state — the vault totals, the user's share balance and
the reward records stay whatever they were (the source guarantees this by the
host's transaction atomicity). -/
theorem c5_withdraw_error_paths (now : Nat) (newRate : Int) (fee : Fee) (v v2 : VaultData)
    (us amount : Int)
    (hu : update_rate now newRate fee v = Except.ok v2)
    (hb : 0 < v2.underlying_to_b_tokens_up amount)
    (hsh : 0 < v2.b_tokens_to_shares_up (v2.underlying_to_b_tokens_up amount)) :
    ((v2.total_shares < v2.b_tokens_to_shares_up (v2.underlying_to_b_tokens_up amount) ∨
      v2.total_b_tokens < v2.underlying_to_b_tokens_up amount) →
      withdraw now newRate fee v us amount =
        Except.error (Panic.contractError ContractError.insufficientReserves)) ∧
    (v2.b_tokens_to_shares_up (v2.underlying_to_b_tokens_up amount) ≤ v2.total_shares →
      v2.underlying_to_b_tokens_up amount ≤ v2.total_b_tokens →
      us < v2.b_tokens_to_shares_up (v2.underlying_to_b_tokens_up amount) →
      withdraw now newRate fee v us amount =
        Except.error (Panic.contractError ContractError.balanceError)) := by
  have hopen : ∀ (P : Except Panic (VaultData × Int × Int × Int) → Prop),
      P (if v2.total_shares < v2.b_tokens_to_shares_up (v2.underlying_to_b_tokens_up amount) ∨
            v2.total_b_tokens < v2.underlying_to_b_tokens_up amount then
          Except.error (Panic.contractError ContractError.insufficientReserves)
        else if us < v2.b_tokens_to_shares_up (v2.underlying_to_b_tokens_up amount) then
          Except.error (Panic.contractError ContractError.balanceError)
        else
          Except.ok ({ v2 with
            total_shares := v2.total_shares -
              v2.b_tokens_to_shares_up (v2.underlying_to_b_tokens_up amount),
            total_b_tokens := v2.total_b_tokens - v2.underlying_to_b_tokens_up amount },
            us - v2.b_tokens_to_shares_up (v2.underlying_to_b_tokens_up amount),
            v2.underlying_to_b_tokens_up amount,
            v2.b_tokens_to_shares_up (v2.underlying_to_b_tokens_up amount))) →
      P (withdraw now newRate fee v us amount) := by
    intro P hP
    unfold withdraw
    rw [hu]
    dsimp only
    unfold requirePositive
    rw [if_neg (not_le.mpr hb)]
    dsimp only
    rw [if_neg (not_le.mpr hsh)]
    exact hP
  constructor
  · intro hcond
    apply hopen (fun r => r = Except.error (Panic.contractError ContractError.insufficientReserves))
    rw [if_pos hcond]
  · intro h1 h2 h3
    apply hopen (fun r => r = Except.error (Panic.contractError ContractError.balanceError))
    rw [if_neg (not_or.mpr ⟨not_lt.mpr h1, not_lt.mpr h2⟩), if_pos h3]

/-- Witness for C5: withdrawing more underlying than the vault holds fails
with `InsufficientReserves`. -/
theorem c5_withdraw_error_paths_witness :
    update_rate 5 1000000000000 (Fee.mk 0 0) (VaultData.mk 0 1000000000000 10 10 0) =
      Except.ok (VaultData.mk 5 1000000000000 10 10 0) ∧
    (0 : Int) < (VaultData.mk 5 1000000000000 10 10 0).underlying_to_b_tokens_up 20 ∧
    (0 : Int) < (VaultData.mk 5 1000000000000 10 10 0).b_tokens_to_shares_up
      ((VaultData.mk 5 1000000000000 10 10 0).underlying_to_b_tokens_up 20) ∧
    withdraw 5 1000000000000 (Fee.mk 0 0) (VaultData.mk 0 1000000000000 10 10 0) 10 20 =
      Except.error (Panic.contractError ContractError.insufficientReserves) :=
  ⟨rfl, by decide, by decide,
    (c5_withdraw_error_paths 5 1000000000000 (Fee.mk 0 0)
      (VaultData.mk 0 1000000000000 10 10 0) (VaultData.mk 5 1000000000000 10 10 0) 10 20
      rfl (by decide) (by decide)).1 (Or.inr (by decide))⟩

/-! Bounds on the accrued admin fee, used for the ledger invariants. -/

lemma adminBTokens_bounds {now : Nat} {newRate : Int} {fee : Fee} {v : VaultData}
    (hT : 0 ≤ v.total_b_tokens) (hb : 0 < v.b_rate) (hlt : v.b_rate < newRate)
    (hr7 : (fee.rate : Int) ≤ SCALAR_7) :
    ∀ a, adminBTokens now newRate fee v = Except.ok a →
      a ≤ v.total_b_tokens ∧ (fee.rate_type ≠ 2 → 0 ≤ a) := by
  intro a h
  have hr0 : (0 : Int) ≤ (fee.rate : Int) := Int.ofNat_nonneg _
  unfold adminBTokens at h
  by_cases h0 : fee.rate_type = 0
  · rw [if_pos h0] at h
    injection h with ha
    subst ha
    exact ⟨(takeRateFee_bounds hT hb hlt hr0 hr7).2,
      fun _ => (takeRateFee_bounds hT hb hlt hr0 hr7).1⟩
  · rw [if_neg h0] at h
    by_cases h12 : fee.rate_type = 1 ∨ fee.rate_type = 2
    · rw [if_pos h12] at h
      by_cases hts : v.last_update_timestamp ≤ now
      · rw [if_pos hts] at h
        dsimp only at h
        by_cases hd : bTokenDiff (now - v.last_update_timestamp) v.total_b_tokens v.b_rate
            newRate (fee.rate : Int) ≤ 0 ∧ fee.rate_type = 1
        · rw [if_pos hd] at h
          injection h with ha
          subst ha
          exact ⟨hT, fun _ => le_refl 0⟩
        · rw [if_neg hd] at h
          injection h with ha
          subst ha
          refine ⟨bTokenDiff_le hT hb hlt hr0, fun hne2 => ?_⟩
          have h1 : fee.rate_type = 1 := by
            rcases h12 with h | h
            · exact h
            · exact absurd h hne2
          have hpos : ¬ bTokenDiff (now - v.last_update_timestamp) v.total_b_tokens v.b_rate
              newRate (fee.rate : Int) ≤ 0 := fun hc => hd ⟨hc, h1⟩
          push_neg at hpos
          exact hpos.le
      · rw [if_neg hts] at h
        exact absurd h (by simp)
    · rw [if_neg h12] at h
      injection h with ha
      subst ha
      exact ⟨hT, fun _ => le_refl 0⟩

lemma update_rate_preserves {now : Nat} {newRate : Int} {fee : Fee} {v : VaultData}
    (hT : 0 ≤ v.total_b_tokens) (hb : 0 < v.b_rate) (hr7 : (fee.rate : Int) ≤ SCALAR_7) :
    ∀ v2, update_rate now newRate fee v = Except.ok v2 →
      0 ≤ v2.total_b_tokens ∧ v2.total_shares = v.total_shares ∧ v2.b_rate = newRate ∧
      (fee.rate_type ≠ 2 → v.admin_balance ≤ v2.admin_balance) := by
  intro v2 h
  unfold update_rate at h
  by_cases hle : newRate ≤ v.b_rate
  · rw [if_pos hle] at h
    injection h with hv
    subst hv
    exact ⟨hT, rfl, rfl, fun _ => le_refl _⟩
  · rw [if_neg hle] at h
    have hlt := not_le.mp hle
    cases hA : adminBTokens now newRate fee v with
    | error p => rw [hA] at h; exact absurd h (by simp)
    | ok a =>
      rw [hA] at h
      dsimp only at h
      obtain ⟨haT, ha0⟩ := adminBTokens_bounds hT hb hlt hr7 a hA
      by_cases h0 : a = 0
      · rw [if_pos h0] at h
        injection h with hv
        subst hv
        exact ⟨hT, rfl, rfl, fun _ => le_refl _⟩
      · rw [if_neg h0] at h
        injection h with hv
        subst hv
        exact ⟨by simp only; linarith, rfl, rfl, fun h2 => by simp only; linarith [ha0 h2]⟩

lemma admin_deposit_ok_elim {now : Nat} {newRate : Int} {fee : Fee} {v : VaultData}
    {amount : Int} {v1 : VaultData} {b : Int}
    (h : admin_deposit now newRate fee v amount = Except.ok (v1, b)) :
    ∃ v2, update_rate now newRate fee v = Except.ok v2 ∧
      b = v2.underlying_to_b_tokens_down amount ∧ 0 < b ∧
      v1 = { v2 with admin_balance := v2.admin_balance + b } := by
  unfold admin_deposit at h
  cases hu : update_rate now newRate fee v with
  | error p => rw [hu] at h; exact absurd h (by simp)
  | ok v2 =>
    rw [hu] at h
    dsimp only at h
    unfold requirePositive at h
    by_cases h1 : v2.underlying_to_b_tokens_down amount ≤ 0
    · rw [if_pos h1] at h; exact absurd h (by simp)
    · rw [if_neg h1] at h
      dsimp only at h
      simp only [Except.ok.injEq, Prod.mk.injEq] at h
      obtain ⟨hv, hb⟩ := h
      subst hb
      subst hv
      exact ⟨v2, rfl, rfl, by omega, rfl⟩

lemma admin_withdraw_ok_elim {now : Nat} {newRate : Int} {fee : Fee} {v : VaultData}
    {amount : Int} {v1 : VaultData} {b : Int}
    (h : admin_withdraw now newRate fee v amount = Except.ok (v1, b)) :
    ∃ v2, update_rate now newRate fee v = Except.ok v2 ∧
      b = v2.underlying_to_b_tokens_up amount ∧ 0 < b ∧ b ≤ v2.admin_balance ∧
      v1 = { v2 with admin_balance := v2.admin_balance - b } := by
  unfold admin_withdraw at h
  cases hu : update_rate now newRate fee v with
  | error p => rw [hu] at h; exact absurd h (by simp)
  | ok v2 =>
    rw [hu] at h
    dsimp only at h
    unfold requirePositive at h
    by_cases h1 : v2.underlying_to_b_tokens_up amount ≤ 0
    · rw [if_pos h1] at h; exact absurd h (by simp)
    · rw [if_neg h1] at h
      dsimp only at h
      by_cases h2 : v2.admin_balance < v2.underlying_to_b_tokens_up amount
      · rw [if_pos h2] at h; exact absurd h (by simp)
      · rw [if_neg h2] at h
        push_neg at h2
        simp only [Except.ok.injEq, Prod.mk.injEq] at h
        obtain ⟨hv, hb⟩ := h
        subst hb
        subst hv
        exact ⟨v2, rfl, rfl, by omega, h2, rfl⟩

/-- C9: every vault ledger operation — refresh under any fee policy, deposit,
withdraw, admin_deposit, admin_withdraw — started from a state with
`total_b_tokens ≥ 0`, `total_shares ≥ 0`, `b_rate > 0`, a positive pool rate
and a fee rate in `[0, 10^7]`, produces (on success) a state with
`total_b_tokens ≥ 0` and `total_shares ≥ 0`; moreover, when the policy is not
FixedRate (`rate_type ≠ 2`), a non-negative `admin_balance` stays
non-negative, so only fixed-rate accrual can drive it below zero. -/
theorem c9_nonnegative_totals (now : Nat) (newRate : Int) (fee : Fee) (v : VaultData)
    (us amount : Int)
    (hT : 0 ≤ v.total_b_tokens) (hS : 0 ≤ v.total_shares) (hb : 0 < v.b_rate)
    (hnew : 0 < newRate) (hr : fee.rate ≤ 10000000) :
    (∀ v1, update_rate now newRate fee v = Except.ok v1 →
       0 ≤ v1.total_b_tokens ∧ 0 ≤ v1.total_shares ∧
       (fee.rate_type ≠ 2 → 0 ≤ v.admin_balance → 0 ≤ v1.admin_balance)) ∧
    (∀ v1 us1 b sh, deposit now newRate fee v us amount = Except.ok (v1, us1, b, sh) →
       0 ≤ v1.total_b_tokens ∧ 0 ≤ v1.total_shares ∧
       (fee.rate_type ≠ 2 → 0 ≤ v.admin_balance → 0 ≤ v1.admin_balance)) ∧
    (∀ v1 us1 b sh, withdraw now newRate fee v us amount = Except.ok (v1, us1, b, sh) →
       0 ≤ v1.total_b_tokens ∧ 0 ≤ v1.total_shares ∧
       (fee.rate_type ≠ 2 → 0 ≤ v.admin_balance → 0 ≤ v1.admin_balance)) ∧
    (∀ v1 b, admin_deposit now newRate fee v amount = Except.ok (v1, b) →
       0 ≤ v1.total_b_tokens ∧ 0 ≤ v1.total_shares ∧
       (fee.rate_type ≠ 2 → 0 ≤ v.admin_balance → 0 ≤ v1.admin_balance)) ∧
    (∀ v1 b, admin_withdraw now newRate fee v amount = Except.ok (v1, b) →
       0 ≤ v1.total_b_tokens ∧ 0 ≤ v1.total_shares ∧ 0 ≤ v1.admin_balance) := by
  have hr7 : (fee.rate : Int) ≤ SCALAR_7 := by
    unfold SCALAR_7
    exact_mod_cast hr
  refine ⟨?_, ?_, ?_, ?_, ?_⟩
  · intro v1 h
    obtain ⟨h1, h2, _, h4⟩ := update_rate_preserves hT hb hr7 v1 h
    exact ⟨h1, h2 ▸ hS, fun hne ha => le_trans ha (h4 hne)⟩
  · intro v1 us1 b sh h
    obtain ⟨v2, hu, _, hbpos, _, hshpos, hv1, _⟩ := deposit_ok_elim h
    obtain ⟨h1, h2, _, h4⟩ := update_rate_preserves hT hb hr7 v2 hu
    have hS2 : 0 ≤ v2.total_shares := by rw [h2]; exact hS
    subst hv1
    refine ⟨by simp only; linarith, by simp only; linarith, ?_⟩
    intro hne ha
    simp only
    exact le_trans ha (h4 hne)
  · intro v1 us1 b sh h
    obtain ⟨v2, hu, _, hbpos, _, hshpos, hsle, hble, _, hv1, _⟩ := withdraw_ok_elim h
    obtain ⟨h1, h2, _, h4⟩ := update_rate_preserves hT hb hr7 v2 hu
    subst hv1
    refine ⟨by simp only; linarith, by simp only; linarith, ?_⟩
    intro hne ha
    simp only
    exact le_trans ha (h4 hne)
  · intro v1 b h
    obtain ⟨v2, hu, _, hbpos, hv1⟩ := admin_deposit_ok_elim h
    obtain ⟨h1, h2, _, h4⟩ := update_rate_preserves hT hb hr7 v2 hu
    subst hv1
    refine ⟨h1, h2 ▸ hS, ?_⟩
    intro hne ha
    simp only
    linarith [le_trans ha (h4 hne)]
  · intro v1 b h
    obtain ⟨v2, hu, _, hbpos, hble, hv1⟩ := admin_withdraw_ok_elim h
    obtain ⟨h1, h2, _, _⟩ := update_rate_preserves hT hb hr7 v2 hu
    subst hv1
    exact ⟨h1, h2 ▸ hS, by simp only; linarith⟩

/-- Witness for C9 at a concrete take-rate refresh plus deposit. -/
theorem c9_nonnegative_totals_witness :
    (0 : Int) ≤ 10000000000 ∧ (0 : Int) ≤ 12000000000 ∧ (0 : Int) < 1000000000000 ∧
    (0 : Int) < 1050000000000 ∧ (1000000 : Nat) ≤ 10000000 ∧
    (∀ v1, update_rate 5 1050000000000 (Fee.mk 0 1000000)
        (VaultData.mk 0 1000000000000 12000000000 10000000000 0) = Except.ok v1 →
      0 ≤ v1.total_b_tokens ∧ 0 ≤ v1.total_shares ∧
      ((Fee.mk 0 1000000).rate_type ≠ 2 →
        0 ≤ (VaultData.mk 0 1000000000000 12000000000 10000000000 0).admin_balance →
        0 ≤ v1.admin_balance)) :=
  ⟨by decide, by decide, by decide, by decide, by decide,
    (c9_nonnegative_totals 5 1050000000000 (Fee.mk 0 1000000)
      (VaultData.mk 0 1000000000000 12000000000 10000000000 0) 0 100
      (by decide) (by decide) (by decide) (by decide) (by decide)).1⟩

/-! The non-skipped branch of the lazy reward index update. -/

lemma load_updated_accrues (now : Nat) (S : Int) (rd : RewardData)
    (h1 : rd.last_time < rd.expiration) (h2 : rd.last_time < now)
    (h3 : rd.eps ≠ 0) (h4 : S ≠ 0) :
    load_updated_reward_data now S rd = Except.ok
      { expiration := rd.expiration, eps := rd.eps, last_time := now,
        index := fixedDivFloor
          ((((if rd.expiration < now then rd.expiration else now) - rd.last_time : Nat) : Int) *
            (rd.eps : Int)) S SCALAR_7 + rd.index } := by
  unfold load_updated_reward_data
  rw [if_neg (by push_neg; exact ⟨by omega, by omega, h3, h4⟩)]
  dsimp only
  rw [if_pos (by split <;> omega)]

/-- C4: the lazy reward index update computes
`additional_index = ⌊(min(now, expiration) − last_time) * eps * 10^7 / total_shares⌋`
(the emission of the elapsed capped interval, at the shares' 7-decimal
fixed-point scale) and sets `last_time = now`; a user's touch adds
`⌊user_shares * (new_index − user_index) / 10^7⌋` to their accrued rewards; in
particular, for `total_shares = 150_0000000`, `RewardData` with
`eps = 0_1000000`, `index = 22222`, `last_time = T`, `UserRewards` with
`index = 11111`, `accrued = 3`, 1234 elapsed seconds and `9_0000000` user
shares, the new index is `8248888` and the user's accrued becomes
`7_4139996`. -/
theorem c4_reward_accrual :
    (∀ (now : Nat) (S : Int) (rd : RewardData),
       rd.last_time < rd.expiration → rd.last_time < now → rd.eps ≠ 0 → S ≠ 0 →
       load_updated_reward_data now S rd = Except.ok
         { expiration := rd.expiration, eps := rd.eps, last_time := now,
           index := fixedDivFloor
             ((((if rd.expiration < now then rd.expiration else now) - rd.last_time : Nat) : Int) *
               (rd.eps : Int)) S SCALAR_7 + rd.index }) ∧
    (∀ (rd : RewardData) (ud : UserRewards) (us : Int),
       ud.index < rd.index → us ≠ 0 →
       update_user_rewards rd (Option.some ud) us false =
         ({ index := rd.index,
            accrued := ud.accrued + fixedMulFloor us (rd.index - ud.index) SCALAR_7 }, 0)) ∧
    (load_updated_reward_data 1713140434 1500000000
        (RewardData.mk 1713744000 1000000 1713139200 22222) =
      Except.ok (RewardData.mk 1713744000 1000000 1713140434 8248888) ∧
     update_user_rewards (RewardData.mk 1713744000 1000000 1713140434 8248888)
        (Option.some (UserRewards.mk 11111 3)) 90000000 false =
      (UserRewards.mk 8248888 74139996, 0)) := by
  refine ⟨fun now S rd ha hb hc hd => load_updated_accrues now S rd ha hb hc hd, ?_, rfl, rfl⟩
  intro rd ud us hlt hus
  simp only [update_user_rewards]
  rw [if_pos (Or.inl (ne_of_lt hlt))]
  rw [if_pos ⟨hus, hlt⟩]
  unfold set_user_rewards
  rw [if_neg (by simp)]

/-- Witness for C4 (index part) at the spec's scenario input. -/
theorem c4_reward_accrual_witness :
    (RewardData.mk 1713744000 1000000 1713139200 22222).last_time <
      (RewardData.mk 1713744000 1000000 1713139200 22222).expiration ∧
    (RewardData.mk 1713744000 1000000 1713139200 22222).last_time < 1713140434 ∧
    (RewardData.mk 1713744000 1000000 1713139200 22222).eps ≠ 0 ∧ (1500000000 : Int) ≠ 0 ∧
    load_updated_reward_data 1713140434 1500000000
        (RewardData.mk 1713744000 1000000 1713139200 22222) =
      Except.ok
        { expiration := (RewardData.mk 1713744000 1000000 1713139200 22222).expiration,
          eps := (RewardData.mk 1713744000 1000000 1713139200 22222).eps,
          last_time := 1713140434,
          index := fixedDivFloor
            ((((if (RewardData.mk 1713744000 1000000 1713139200 22222).expiration < 1713140434
                then (RewardData.mk 1713744000 1000000 1713139200 22222).expiration
                else 1713140434) -
                (RewardData.mk 1713744000 1000000 1713139200 22222).last_time : Nat) : Int) *
              ((RewardData.mk 1713744000 1000000 1713139200 22222).eps : Int)) 1500000000 SCALAR_7 +
            (RewardData.mk 1713744000 1000000 1713139200 22222).index } :=
  ⟨by decide, by decide, by decide, by decide,
    c4_reward_accrual.1 1713140434 1500000000 (RewardData.mk 1713744000 1000000 1713139200 22222)
      (by decide) (by decide) (by decide) (by decide)⟩

/-- C10: when the lazy reward index update is skipped because `eps = 0` or
`total_shares = 0` while `now` is past `last_time` and the period is
unexpired, the stored `RewardData` is returned entirely unchanged — in
particular `last_time` is NOT advanced — and a later update with non-zero
shares accrues the index over the whole interval from the old `last_time`,
capped at `expiration`, against the shares present at that later update. -/
theorem c10_skipped_interval_preserved (rd : RewardData) (now1 : Nat) (S1 : Int)
    (hexp : rd.last_time < rd.expiration) (hnow : rd.last_time < now1)
    (hskip : rd.eps = 0 ∨ S1 = 0) :
    load_updated_reward_data now1 S1 rd = Except.ok rd ∧
    (∀ (now2 : Nat) (S2 : Int), rd.eps ≠ 0 → S2 ≠ 0 → rd.last_time < now2 →
       load_updated_reward_data now2 S2 rd = Except.ok
         { expiration := rd.expiration, eps := rd.eps, last_time := now2,
           index := fixedDivFloor
             ((((if rd.expiration < now2 then rd.expiration else now2) - rd.last_time : Nat) : Int) *
               (rd.eps : Int)) S2 SCALAR_7 + rd.index }) := by
  constructor
  · unfold load_updated_reward_data
    rw [if_pos (Or.inr (Or.inr hskip))]
  · intro now2 S2 h3 h4 h2
    exact load_updated_accrues now2 S2 rd hexp h2 h3 h4

/-- Witness for C10: a zero-share skip at `now = 50` followed by an accruing
update at `now = 60` with 4 shares. -/
theorem c10_skipped_interval_preserved_witness :
    (RewardData.mk 100 2 10 7).last_time < (RewardData.mk 100 2 10 7).expiration ∧
    (RewardData.mk 100 2 10 7).last_time < 50 ∧
    ((RewardData.mk 100 2 10 7).eps = 0 ∨ (0 : Int) = 0) ∧
    (load_updated_reward_data 50 0 (RewardData.mk 100 2 10 7) =
        Except.ok (RewardData.mk 100 2 10 7) ∧
      (∀ (now2 : Nat) (S2 : Int), (RewardData.mk 100 2 10 7).eps ≠ 0 → S2 ≠ 0 →
        (RewardData.mk 100 2 10 7).last_time < now2 →
        load_updated_reward_data now2 S2 (RewardData.mk 100 2 10 7) = Except.ok
          { expiration := (RewardData.mk 100 2 10 7).expiration,
            eps := (RewardData.mk 100 2 10 7).eps, last_time := now2,
            index := fixedDivFloor
              ((((if (RewardData.mk 100 2 10 7).expiration < now2
                  then (RewardData.mk 100 2 10 7).expiration else now2) -
                  (RewardData.mk 100 2 10 7).last_time : Nat) : Int) *
                ((RewardData.mk 100 2 10 7).eps : Int)) S2 SCALAR_7 +
              (RewardData.mk 100 2 10 7).index })) :=
  ⟨by decide, by decide, Or.inr rfl,
    c10_skipped_interval_preserved (RewardData.mk 100 2 10 7) 50 0
      (by decide) (by decide) (Or.inr rfl)⟩

/-- C7, counterexample: calling `set_rewards` with `expiration` strictly
earlier than `now` fails with the `u64` subtraction underflow trap of
`expiration - e.ledger().timestamp()`, not with `InvalidRewardConfig`. -/
theorem c7_claim_counterexample :
    set_rewards 10 0 (RewardsState.mk Option.none (fun _ => Option.none)) 0 7 5 =
      Except.error Panic.arithmeticOverflow ∧
    Panic.arithmeticOverflow ≠ Panic.contractError ContractError.invalidRewardConfig :=
  ⟨rfl, by decide⟩

/-- C7 (amended): when `now ≤ expiration`, a call to `set_rewards` with a zero
period (`expiration = now`) or a non-positive reward amount fails with
`InvalidRewardConfig` before the token transfer and before any state
mutation (the checks are the first statements of the function); when
`expiration < now`, the `u64` subtraction `expiration - now` traps with an
arithmetic underflow (still before any transfer or mutation), not with
`InvalidRewardConfig`. -/
theorem c7_set_rewards_validation (now : Nat) (S : Int) (s : RewardsState) (token : Nat)
    (amount : Int) (expiration : Nat) :
    (now ≤ expiration → (expiration - now = 0 ∨ amount ≤ 0) →
       set_rewards now S s token amount expiration =
         Except.error (Panic.contractError ContractError.invalidRewardConfig)) ∧
    (expiration < now →
       set_rewards now S s token amount expiration = Except.error Panic.arithmeticOverflow) := by
  constructor
  · intro hle hbad
    unfold set_rewards
    rw [if_neg (not_lt.mpr hle), if_pos hbad]
  · intro hlt
    unfold set_rewards
    rw [if_pos hlt]

/-- Witness for C7: a zero period (`expiration = now = 10`) is rejected with
`InvalidRewardConfig`. -/
theorem c7_set_rewards_validation_witness :
    (10 : Nat) ≤ 10 ∧ ((10 - 10 : Nat) = 0 ∨ (7 : Int) ≤ 0) ∧
    set_rewards 10 0 (RewardsState.mk Option.none (fun _ => Option.none)) 0 7 10 =
      Except.error (Panic.contractError ContractError.invalidRewardConfig) :=
  ⟨by decide, Or.inl rfl,
    (c7_set_rewards_validation 10 0 (RewardsState.mk Option.none (fun _ => Option.none))
      0 7 10).1 (by decide) (Or.inl rfl)⟩

/-- C6, counterexample: boosting an active reward (same token, longer
expiration: `eps0 = 1`, 100 seconds remaining, `amount = 1`, new period 1000)
computes `⌊(1 + 100*1)/1000⌋ = 0`, and instead of setting `eps` to that value
the call fails with `InvalidRewardConfig` — `calculate_eps` rejects a
non-positive emission rate. -/
theorem c6_claim_counterexample :
    set_rewards 0 0
        (RewardsState.mk (Option.some 0)
          (fun t => if t = 0 then Option.some (RewardData.mk 100 1 0 5) else Option.none))
        0 1 1000 =
      Except.error (Panic.contractError ContractError.invalidRewardConfig) ∧
    Int.fdiv (1 + (100 : Int) * 1) 1000 = 0 :=
  ⟨rfl, rfl⟩

/-- C6 (amended): when `set_rewards` is called while the currently active
token's reward period is still unexpired after lazy accrual (`rd1` the accrued
data, `now < rd1.expiration`), it fails with `InvalidRewardConfig` if the new
token differs from the active token or the new expiration is earlier than the
current one; otherwise, writing
`eps1 = ⌊(amount + remaining_seconds * current_eps) / new_period⌋`: if
`0 < eps1 ≤ u64::MAX` the call stores exactly `eps = eps1`, preserves the
(accrued) index unchanged, and sets `last_time = now` and the new expiration;
if `eps1 ≤ 0` the call instead fails with `InvalidRewardConfig`. -/
theorem c6_reward_boost (now : Nat) (S : Int) (s : RewardsState) (ct : Nat)
    (rd0 rd1 : RewardData) (token : Nat) (amount : Int) (expiration : Nat)
    (hct : s.reward_token = Option.some ct)
    (hrd : s.reward_data ct = Option.some rd0)
    (hupd : load_updated_reward_data now S rd0 = Except.ok rd1)
    (hact : now < rd1.expiration)
    (hno : now < expiration) (hamt : 0 < amount) :
    (ct ≠ token ∨ expiration < rd1.expiration →
       set_rewards now S s token amount expiration =
         Except.error (Panic.contractError ContractError.invalidRewardConfig)) ∧
    (ct = token → rd1.expiration ≤ expiration →
       (0 < Int.fdiv (amount + ((rd1.expiration - now : Nat) : Int) * (rd1.eps : Int))
            ((expiration - now : Nat) : Int) →
        Int.fdiv (amount + ((rd1.expiration - now : Nat) : Int) * (rd1.eps : Int))
            ((expiration - now : Nat) : Int) ≤ U64_MAX →
        (set_rewards now S s token amount expiration).map
            (fun s2 => (s2.reward_token, s2.reward_data token)) =
          Except.ok (Option.some ct,
            Option.some
              { expiration := expiration,
                eps := (Int.fdiv
                  (amount + ((rd1.expiration - now : Nat) : Int) * (rd1.eps : Int))
                  ((expiration - now : Nat) : Int)).toNat,
                last_time := now, index := rd1.index })) ∧
       (Int.fdiv (amount + ((rd1.expiration - now : Nat) : Int) * (rd1.eps : Int))
            ((expiration - now : Nat) : Int) ≤ 0 →
        set_rewards now S s token amount expiration =
          Except.error (Panic.contractError ContractError.invalidRewardConfig))) := by
  refine ⟨?_, ?_⟩
  · intro hbad
    unfold set_rewards
    rw [if_neg (by omega)]
    rw [if_neg (not_or.mpr ⟨by omega, by omega⟩)]
    rw [hct]
    dsimp only
    rw [hrd]
    dsimp only
    rw [hupd]
    dsimp only
    rw [if_pos hact, if_pos hbad]
  · intro hcteq hexple
    constructor
    · intro hpos hle
      unfold set_rewards
      rw [if_neg (by omega)]
      rw [if_neg (not_or.mpr ⟨by omega, by omega⟩)]
      rw [hct]
      dsimp only
      rw [hrd]
      dsimp only
      rw [hupd]
      dsimp only
      rw [if_pos hact]
      rw [if_neg (not_or.mpr ⟨fun hc => hc hcteq, not_lt.mpr hexple⟩)]
      unfold calculate_eps
      rw [if_neg (not_or.mpr ⟨not_le.mpr hpos, not_lt.mpr hle⟩)]
      dsimp only [Except.map]
      simp
    · intro hz
      unfold set_rewards
      rw [if_neg (by omega)]
      rw [if_neg (not_or.mpr ⟨by omega, by omega⟩)]
      rw [hct]
      dsimp only
      rw [hrd]
      dsimp only
      rw [hupd]
      dsimp only
      rw [if_pos hact]
      rw [if_neg (not_or.mpr ⟨fun hc => hc hcteq, not_lt.mpr hexple⟩)]
      unfold calculate_eps
      rw [if_pos (Or.inl hz)]

/-- Witness for C6 (boost path): an active token `0` with `eps = 2`, 100
seconds remaining, boosted with `amount = 1000` over a 200-second period gets
`eps = ⌊(1000 + 100*2)/200⌋ = 6` and keeps its index `7`. -/
theorem c6_reward_boost_witness :
    (RewardsState.mk (Option.some 0)
        (fun t => if t = 0 then Option.some (RewardData.mk 100 2 0 7) else Option.none)).reward_token =
      Option.some 0 ∧
    load_updated_reward_data 0 0 (RewardData.mk 100 2 0 7) =
      Except.ok (RewardData.mk 100 2 0 7) ∧
    (0 : Nat) < (RewardData.mk 100 2 0 7).expiration ∧ (0 : Nat) < 200 ∧ (0 : Int) < 1000 ∧
    (set_rewards 0 0
        (RewardsState.mk (Option.some 0)
          (fun t => if t = 0 then Option.some (RewardData.mk 100 2 0 7) else Option.none))
        0 1000 200).map (fun s2 => (s2.reward_token, s2.reward_data 0)) =
      Except.ok (Option.some 0,
        Option.some
          { expiration := 200,
            eps := (Int.fdiv
              (1000 + (((RewardData.mk 100 2 0 7).expiration - 0 : Nat) : Int) *
                ((RewardData.mk 100 2 0 7).eps : Int))
              ((200 - 0 : Nat) : Int)).toNat,
            last_time := 0, index := (RewardData.mk 100 2 0 7).index }) :=
  ⟨rfl, rfl, by decide, by decide, by decide,
    ((c6_reward_boost 0 0
        (RewardsState.mk (Option.some 0)
          (fun t => if t = 0 then Option.some (RewardData.mk 100 2 0 7) else Option.none))
        0 (RewardData.mk 100 2 0 7) (RewardData.mk 100 2 0 7) 0 1000 200
        rfl rfl rfl (by decide) (by decide) (by decide)).2 rfl (by decide)).1
      (by decide) (by decide)⟩

end FeeVault
